import Mathlib

/-!
Verification of the balldrop simulation core.

This file gives a shallow embedding, in Lean 4, of the simulation engine of
the balldrop repository: the configuration constants, the randomized lane
generator and platform-position generator, the platform collision resolver,
the ball jump/air-state machine, the jetpack update, the moving-platform
kinematics and the fall-out-of-bounds check.  JS numbers are modelled as
rationals except for the trigonometric platform trajectories, which are
modelled over the reals.  A JS object field that a function may read but
that is absent from the object (reading it yields undefined) is modelled
as an Option field holding none, and the JS comparison of a number with
undefined (always false) is modelled by matching on that Option.

The embedding follows the newer of the two rule sets present in the
sources: the platform entity whose collision info carries a bounceEffect
tag, the ball entity whose applyPlatformEffects switches on bounceEffect,
and the keyboard jump handler of the controls module.
-/

namespace BallDrop

/-- A 3-component vector of rationals, modelling a THREE.Vector3 snapshot. -/
structure Vec3 where
  x : ℚ
  y : ℚ
  z : ℚ
deriving DecidableEq, Repr

/-- The game settings object of src/js/config.js.  The field minSpeed is
declared as an Option because applyPlatformEffects reads
GAME_SETTINGS.minSpeed although config.js never defines it: the JS read
yields undefined, modelled here as none. -/
structure GameSettings where
  initialSpeed : ℚ
  gravity : ℚ
  jumpForce : ℚ
  maxJumpForce : ℚ
  platformsPerLevel : ℕ
  platformSpawnZ : ℚ
  jetpackBoostForce : ℚ
  distanceForNextLevel : ℚ
  minSpeed : Option ℚ
deriving DecidableEq, Repr

/-- GAME_SETTINGS of src/js/config.js; minSpeed is absent there. -/
def GAME_SETTINGS : GameSettings :=
  { initialSpeed := 0.15
    gravity := 0.02
    jumpForce := 0.3
    maxJumpForce := 0.4
    platformsPerLevel := 20
    platformSpawnZ := -1000
    jetpackBoostForce := 0.015
    distanceForNextLevel := 500
    minSpeed := none }

/-- The clamp helper of src/js/utils/helpers.js:
Math.max(lo, Math.min(hi, value)). -/
def clamp (value lo hi : ℚ) : ℚ :=
  max lo (min hi value)

/-- The nine ordered lateral lanes (PLATFORM_TYPES in config.js). -/
inductive Lane where
  | farFarLeft
  | farLeft
  | left
  | centerLeft
  | center
  | centerRight
  | right
  | farRight
  | farFarRight
deriving DecidableEq, Repr

/-- Index of a lane in the 9-lane ordering, far-far-left first. -/
def laneIdx : Lane → ℤ
  | Lane.farFarLeft => 0
  | Lane.farLeft => 1
  | Lane.left => 2
  | Lane.centerLeft => 3
  | Lane.center => 4
  | Lane.centerRight => 5
  | Lane.right => 6
  | Lane.farRight => 7
  | Lane.farFarRight => 8

/-- The lane-transition table of createPlatform (identical in
src/js/entities/platform.js and in the platform module embedded in
src/js/utils/helpers.js): given the last platform type and the draw
rand of Math.random, produce the next platform type. -/
def nextLane (lastPlatformType : Lane) (rand : ℚ) : Lane :=
  match lastPlatformType with
  | Lane.farFarLeft => Lane.farLeft
  | Lane.farLeft =>
      if rand < 0.3 then Lane.farFarLeft
      else if rand < 0.7 then Lane.left
      else Lane.centerLeft
  | Lane.left =>
      if rand < 0.3 then Lane.farLeft
      else if rand < 0.7 then Lane.centerLeft
      else Lane.center
  | Lane.centerLeft =>
      if rand < 0.3 then Lane.left
      else if rand < 0.7 then Lane.center
      else Lane.centerRight
  | Lane.center =>
      if rand < 0.15 then Lane.farLeft
      else if rand < 0.3 then Lane.left
      else if rand < 0.45 then Lane.centerLeft
      else if rand < 0.6 then Lane.centerRight
      else if rand < 0.75 then Lane.right
      else if rand < 0.9 then Lane.farRight
      else if rand < 0.95 then Lane.farFarLeft
      else Lane.farFarRight
  | Lane.centerRight =>
      if rand < 0.3 then Lane.center
      else if rand < 0.7 then Lane.right
      else Lane.farRight
  | Lane.right =>
      if rand < 0.3 then Lane.centerRight
      else if rand < 0.7 then Lane.farRight
      else Lane.farFarRight
  | Lane.farRight =>
      if rand < 0.7 then Lane.right
      else Lane.farFarRight
  | Lane.farFarRight => Lane.farRight

/-- The X base position assigned to a platform type by createPlatform,
given the draw of Math.random used inside the corresponding switch case. -/
def nextPlatformX (platformType : Lane) (r : ℚ) : ℚ :=
  match platformType with
  | Lane.farFarLeft => -35 - r * 5
  | Lane.farLeft => -25 - r * 5
  | Lane.left => -15 - r * 5
  | Lane.centerLeft => -7 - r * 3
  | Lane.center => r * 10 - 5
  | Lane.centerRight => 7 + r * 3
  | Lane.right => 15 + r * 5
  | Lane.farRight => 25 + r * 5
  | Lane.farFarRight => 35 + r * 5

/-- The Y coordinate of the next platform: with heightVariation below 0.8
descend by 2 + randY * 4 units, otherwise stay level (createPlatform,
non-first branch). -/
def nextPlatformY (lastY heightVariation randY : ℚ) : ℚ :=
  if heightVariation < 0.8 then lastY - (2 + randY * 4) else lastY

/-- The Z coordinate of the next platform: previous Z minus a forward gap
of 6 + randZ * 5.25 units (createPlatform, non-first branch). -/
def nextPlatformZ (lastZ randZ : ℚ) : ℚ :=
  lastZ - (6 + randZ * 5.25)

/-- How the ball became airborne.  The JS code stores one of the strings
jumped, bounced, rolled, fell, or the empty string; blank models the
empty string. -/
inductive AirEntry where
  | blank
  | jumped
  | bounced
  | rolled
  | fell
deriving DecidableEq, Repr

/-- The bounce effect tag stored in a platform's userData: forward for
speed-boost (green) trampolines, backward for slow-down (orange) ones.
A regular platform stores null, modelled as none at the use sites. -/
inductive BounceEffect where
  | forward
  | backward
deriving DecidableEq, Repr

/-- The module-level mutable state of the ball entity (the newer ball
module): position, velocity, the jump flags, the jump-charge accumulator,
the air-entry method, the was-on-platform flag and the extra-jump
counter.  The purely visual rotation of the mesh is not modelled. -/
structure BallState where
  pos : Vec3
  vel : Vec3
  isJumping : Bool
  hasDoubleJumped : Bool
  jumpChargeTime : ℚ
  airEntryMethod : AirEntry
  wasOnPlatform : Bool
  extraJumps : ℤ
deriving DecidableEq, Repr

/-- The collision-relevant data of one platform mesh: its position and the
userData fields written by createPlatform in the platform module embedded
in src/js/utils/helpers.js. -/
structure PlatformData where
  pos : Vec3
  width : ℚ
  depth : ℚ
  radius : ℚ
  isRoundPlatform : Bool
  isTrampoline : Bool
  isSlowDownTrampoline : Bool
  bounceEffect : Option BounceEffect
  isRedFlagPlatform : Bool
deriving DecidableEq, Repr

/-- The object returned by checkPlatformCollision of the platform module
in src/js/utils/helpers.js.  That function returns onPlatform,
bounceEffect, isRedFlagPlatform and (on a hit) platformY and ballRadius.
It does NOT return an isTrampoline property, so a read of that property
on the returned object yields undefined; the field is therefore an
Option Bool that checkPlatformCollision always leaves at none. -/
structure PlatformInfo where
  onPlatform : Bool
  bounceEffect : Option BounceEffect
  isRedFlagPlatform : Bool
  platformY : Option ℚ
  ballRadius : Option ℚ
  isTrampoline : Option Bool
deriving DecidableEq, Repr

/-- The local ball radius constant used by the collision functions. -/
def ballRadius : ℚ := 1

/-- The per-platform collision test of checkPlatformCollision: a disc
platform collides when the squared planar distance is within
(0.9 radius) squared, the vertical gap is within 0.5 and the ball is not
moving up; a rectangular platform collides when the radius-expanded
bounds overlap and the same vertical and velocity conditions hold. -/
def platformCollides (ballPosition ballVelocity : Vec3) (p : PlatformData) : Bool :=
  if p.isRoundPlatform then
    let dx := ballPosition.x - p.pos.x
    let dz := ballPosition.z - p.pos.z
    let distanceSquared := dx * dx + dz * dz
    decide (distanceSquared ≤ p.radius * 0.9 * (p.radius * 0.9)) &&
    decide (|ballPosition.y - ballRadius - (p.pos.y + 0.5)| ≤ 0.5) &&
    decide (ballVelocity.y ≤ 0)
  else
    let minX := p.pos.x - p.width / 2
    let maxX := p.pos.x + p.width / 2
    let minZ := p.pos.z - p.depth / 2
    let maxZ := p.pos.z + p.depth / 2
    let topY := p.pos.y + 0.5
    decide (minX ≤ ballPosition.x + ballRadius * 0.8) &&
    decide (ballPosition.x - ballRadius * 0.8 ≤ maxX) &&
    decide (minZ ≤ ballPosition.z + ballRadius * 0.8) &&
    decide (ballPosition.z - ballRadius * 0.8 ≤ maxZ) &&
    decide (|ballPosition.y - ballRadius - topY| ≤ 0.5) &&
    decide (ballVelocity.y ≤ 0)

/-- The collision-info object built by checkPlatformCollision on a hit.
For both shapes the reported platform top is position.y + 0.5.  No
isTrampoline property is written. -/
def collisionInfoOf (p : PlatformData) : PlatformInfo :=
  { onPlatform := true
    bounceEffect := p.bounceEffect
    isRedFlagPlatform := p.isRedFlagPlatform
    platformY := some (p.pos.y + 0.5)
    ballRadius := some ballRadius
    isTrampoline := none }

/-- The object returned by checkPlatformCollision when no platform
collides. -/
def noCollisionInfo : PlatformInfo :=
  { onPlatform := false
    bounceEffect := none
    isRedFlagPlatform := false
    platformY := none
    ballRadius := none
    isTrampoline := none }

/-- checkPlatformCollision of the platform module in
src/js/utils/helpers.js: scan the platform list in order and return the
info of the first colliding platform, or the no-collision object. -/
def checkPlatformCollision (ballPosition ballVelocity : Vec3) :
    List PlatformData → PlatformInfo
  | [] => noCollisionInfo
  | p :: rest =>
      if platformCollides ballPosition ballVelocity p then collisionInfoOf p
      else checkPlatformCollision ballPosition ballVelocity rest

/-- applyPlatformEffects of the newer ball module: on a landing
(onPlatform with downward vertical velocity) zero the vertical velocity,
clear the jumping and double-jump flags and the air-entry method, then
switch on the bounce effect.  The forward case rebounds at 1.5 times the
max jump force, adds a forward impulse and raises the base speed by
0.025; the backward case rebounds equally, adds a backward impulse,
lowers the base speed by 0.05 and then compares it against
GAME_SETTINGS.minSpeed, a field config.js does not define: the JS
comparison of a number with undefined is false, so the none branch
leaves the lowered speed unchanged, exactly as the program does. -/
def applyPlatformEffects (platformInfo : PlatformInfo) (speed : ℚ)
    (s : BallState) : BallState × ℚ :=
  if platformInfo.onPlatform && decide (s.vel.y < 0) then
    let s1 : BallState :=
      { s with vel := { s.vel with y := 0 }
               isJumping := false
               hasDoubleJumped := false
               airEntryMethod := AirEntry.blank }
    match platformInfo.bounceEffect with
    | some BounceEffect.forward =>
        let v1 := { s1.vel with y := GAME_SETTINGS.maxJumpForce * 1.5 }
        let v2 := { v1 with z := v1.z - 0.1 }
        ({ s1 with
            vel := v2,
            isJumping := false,
            airEntryMethod := AirEntry.bounced,
            hasDoubleJumped := false },
         speed + 0.025)
    | some BounceEffect.backward =>
        let speed1 := speed - 0.05
        let speed2 :=
          match GAME_SETTINGS.minSpeed with
          | some m => if speed1 < m then m else speed1
          | none => speed1
        let v1 := { s1.vel with y := GAME_SETTINGS.maxJumpForce * 1.5 }
        let v2 := { v1 with z := v1.z + 0.2 }
        ({ s1 with
            vel := v2,
            isJumping := false,
            airEntryMethod := AirEntry.bounced,
            hasDoubleJumped := false },
         speed2)
    | none => (s1, speed)
  else (s, speed)

/-- The result of handlePlatformCollisions: the updated ball state and
speed, the on-platform flag of the returned object, and whether the
onRedFlagPlatformReached callback was invoked during the call. -/
structure HandleResult where
  ball : BallState
  speed : ℚ
  onPlatform : Bool
  redFlagCallbackInvoked : Bool
deriving DecidableEq, Repr

/-- The body of handlePlatformCollisions of src/js/systems/collision.js
after the collision info has been computed: apply the platform effects,
then, if on a platform, snap the ball to platformY + ballRadius and
invoke the goal callback when the info satisfies both isRedFlagPlatform
and isTrampoline (the latter read as a JS truthiness test, so an absent
field counts as false). -/
def handleCollisionInfo (platformInfo : PlatformInfo) (speed : ℚ)
    (s : BallState) : HandleResult :=
  let res := applyPlatformEffects platformInfo speed s
  if platformInfo.onPlatform then
    { ball := { res.1 with
        pos := { res.1.pos with
          y := platformInfo.platformY.getD 0 + platformInfo.ballRadius.getD 0 } }
      speed := res.2
      onPlatform := true
      redFlagCallbackInvoked :=
        platformInfo.isRedFlagPlatform && platformInfo.isTrampoline.getD false }
  else
    { ball := res.1, speed := res.2, onPlatform := false
      redFlagCallbackInvoked := false }

/-- handlePlatformCollisions of src/js/systems/collision.js: compute the
collision info from the ball position and velocity, then handle it. -/
def handlePlatformCollisions (platforms : List PlatformData) (speed : ℚ)
    (s : BallState) : HandleResult :=
  handleCollisionInfo (checkPlatformCollision s.pos s.vel platforms) speed s

/-- The jump function of the newer ball module.  An extra jump only sets
the vertical velocity and decrements the extra-jump counter; a double
jump sets the vertical velocity and the double-jump flag; a first jump
sets the jumping flag, clears the double-jump flag, sets the vertical
velocity to the base jump force, resets the charge accumulator and, when
the ball was on a platform last frame, records the jumped entry method. -/
def jump (isDoubleJump isExtraJump : Bool) (s : BallState) : BallState :=
  if isExtraJump then
    { s with vel := { s.vel with y := GAME_SETTINGS.jumpForce * 1.0 },
             extraJumps := s.extraJumps - 1 }
  else if isDoubleJump then
    { s with vel := { s.vel with y := GAME_SETTINGS.jumpForce * 1.0 },
             hasDoubleJumped := true }
  else
    let s1 : BallState :=
      { s with isJumping := true,
               hasDoubleJumped := false,
               vel := { s.vel with y := GAME_SETTINGS.jumpForce },
               jumpChargeTime := 0 }
    if s1.wasOnPlatform then { s1 with airEntryMethod := AirEntry.jumped }
    else s1

/-- The ball state together with the space-key flag of the controls
module. -/
structure TickState where
  ball : BallState
  keySpace : Bool
deriving DecidableEq, Repr

/-- The jump-dispatch logic of the space-key case of onKeyDown in the
controls module, from the point where a jump can actually be issued
(grab mode, claw release and jetpack activation have already been ruled
out by the earlier returns).  The second component records whether a
double jump was granted by this key press. -/
def handleJumpInput (onPlatform : Bool) (st : TickState) : TickState × Bool :=
  let s := st.ball
  if !st.keySpace && !s.isJumping && onPlatform then
    ({ ball := jump false false s, keySpace := true }, false)
  else if !st.keySpace && !onPlatform then
    if !s.isJumping && decide (s.airEntryMethod = AirEntry.fell) then
      ({ ball := jump false false s, keySpace := true }, false)
    else if !s.hasDoubleJumped then
      if decide (s.airEntryMethod = AirEntry.jumped) ||
         decide (s.airEntryMethod = AirEntry.bounced) ||
         decide (s.airEntryMethod = AirEntry.rolled) then
        ({ ball := jump true false s, keySpace := true }, true)
      else if decide (s.airEntryMethod = AirEntry.fell) && s.isJumping then
        ({ ball := jump true false s, keySpace := true }, true)
      else (st, false)
    else if s.hasDoubleJumped && decide (0 < s.extraJumps) then
      ({ ball := jump false true s, keySpace := true }, false)
    else (st, false)
  else (st, false)

/-- The space-key case of onKeyUp in the controls module: if the key was
down and the ball is jumping, add the charge bonus, capped at
maxJumpForce minus jumpForce, to the vertical velocity (applyJumpForce),
then clear the key flag.  The jetpack deactivation callback is handled
by the jetpack events of the trace model. -/
def releaseSpaceKey (st : TickState) : TickState :=
  let s := st.ball
  let s1 :=
    if st.keySpace && s.isJumping then
      { s with vel := { s.vel with
          y := s.vel.y + min (GAME_SETTINGS.maxJumpForce - GAME_SETTINGS.jumpForce)
                             (s.jumpChargeTime * 0.8) } }
    else s
  { ball := s1, keySpace := false }

/-- The external queries updateBallPosition performs during a tick: the
isOnPlatform callback, and the position delta of the moving platform the
ball currently rests on (none when the resting platform is not a moving
one or the ball is in the air). -/
structure TickEnv where
  onPlatformNow : Bool
  movingDelta : Option Vec3
deriving DecidableEq, Repr

/-- The directional input flags read by updateBallPosition. -/
structure Keys where
  left : Bool
  right : Bool
  space : Bool
deriving DecidableEq, Repr

/-- updateBallPosition of the newer ball module, without the purely
visual rotation update: detect a roll-off or fall-off (previous frame on
a platform, this frame not, and not jumping), which records the entry
method from the horizontal speed and re-enables the double jump; update
the was-on-platform flag; co-move with a moving platform; integrate the
horizontal velocity with acceleration, friction and clamping; accumulate
the jump charge; apply gravity unless the jetpack is active with fuel,
clamp to the terminal velocity; and advance the position. -/
def updateBallPosition (keys : Keys) (deltaTime speed : ℚ)
    (isJetpackActive : Bool) (jetpackFuel : ℤ) (env : TickEnv)
    (s : BallState) : BallState :=
  let acceleration : ℚ := 0.01
  let maxVelocity : ℚ := 0.3
  let friction : ℚ := 0.98
  let onPlatformNow := env.onPlatformNow
  let s1 :=
    if s.wasOnPlatform && !onPlatformNow && !s.isJumping then
      let s0 :=
        if decide ((0.01 : ℚ) < |s.vel.x|) then
          { s with airEntryMethod := AirEntry.rolled }
        else { s with airEntryMethod := AirEntry.fell }
      { s0 with hasDoubleJumped := false }
    else s
  let s2 := { s1 with wasOnPlatform := onPlatformNow }
  let s3 :=
    if onPlatformNow then
      match env.movingDelta with
      | some d =>
          { s2 with pos := { x := s2.pos.x + d.x, y := s2.pos.y + d.y,
                             z := s2.pos.z + d.z } }
      | none => s2
    else s2
  let vx0 := s3.vel.x + (if keys.left then -acceleration else 0)
  let vx1 := vx0 + (if keys.right then acceleration else 0)
  let vx2 := vx1 * friction
  let vx3 := clamp vx2 (-maxVelocity) maxVelocity
  let s4 := { s3 with vel := { s3.vel with x := vx3 } }
  let s5 :=
    if keys.space && !s4.isJumping && onPlatformNow then
      let c := s4.jumpChargeTime + deltaTime
      { s4 with jumpChargeTime := if (0.5 : ℚ) < c then 0.5 else c }
    else s4
  let vy0 :=
    if !isJetpackActive || decide (jetpackFuel ≤ 0) then
      s5.vel.y - GAME_SETTINGS.gravity * deltaTime * 60
    else s5.vel.y
  let terminalVelocity : ℚ := -0.5
  let vy1 := if vy0 < terminalVelocity then terminalVelocity else vy0
  let s6 := { s5 with vel := { s5.vel with y := vy1 } }
  { s6 with pos := { x := s6.pos.x + s6.vel.x * deltaTime * 60,
                     y := s6.pos.y + s6.vel.y * deltaTime * 60,
                     z := s6.pos.z - speed * deltaTime * 60 } }

/-- The physics part of updateJetpack of the jetpack module: when the
jetpack exists, is active and has fuel, add the boost force to the
vertical velocity and consume one fuel unit; when the consumed unit was
the last one, set the jumping flag and clear the double-jump flag so a
double jump becomes available in the air.  Returns the updated ball
state and fuel. -/
def updateJetpack (jetpackExists isJetpackActive : Bool) (jetpackFuel : ℤ)
    (s : BallState) : BallState × ℤ :=
  if !jetpackExists then (s, jetpackFuel)
  else if isJetpackActive && decide (0 < jetpackFuel) then
    let s1 := { s with vel := { s.vel with
      y := s.vel.y + GAME_SETTINGS.jetpackBoostForce } }
    let willDepleteFuel := decide (jetpackFuel = 1)
    let fuel1 := jetpackFuel - 1
    let s2 :=
      if willDepleteFuel then
        { s1 with isJumping := true, hasDoubleJumped := false }
      else s1
    (s2, fuel1)
  else (s, jetpackFuel)

/-- One observable event acting on the ball state within an airborne
stretch of the main loop: a physics tick of updateBallPosition, a
jetpack tick, a collision-resolution pass (carrying the info that
checkPlatformCollision computed this frame), a space-key press routed to
the jump logic, or a space-key release. -/
inductive GameEvent where
  | physicsTick (keys : Keys) (deltaTime speed : ℚ) (isJetpackActive : Bool)
      (jetpackFuel : ℤ) (env : TickEnv)
  | jetpackTick (isJetpackActive : Bool) (jetpackFuel : ℤ)
  | collide (info : PlatformInfo) (speed : ℚ)
  | pressJump (onPlatform : Bool)
  | releaseSpace

/-- Apply one event to the composite state; the Bool records whether the
event granted a double jump. -/
def stepEvent (st : TickState) : GameEvent → TickState × Bool
  | GameEvent.physicsTick keys dt speed active fuel env =>
      ({ st with ball := updateBallPosition keys dt speed active fuel env st.ball },
       false)
  | GameEvent.jetpackTick active fuel =>
      ({ st with ball := (updateJetpack true active fuel st.ball).1 }, false)
  | GameEvent.collide info speed =>
      ({ st with ball := (handleCollisionInfo info speed st.ball).ball }, false)
  | GameEvent.pressJump onPlatform => handleJumpInput onPlatform st
  | GameEvent.releaseSpace => (releaseSpaceKey st, false)

/-- Number of double jumps granted while processing a list of events. -/
def runDJ (st : TickState) : List GameEvent → ℕ
  | [] => 0
  | e :: rest =>
      let r := stepEvent st e
      (if r.2 then 1 else 0) + runDJ r.1 rest

/-- An event during which the ball stays off every platform: the physics
tick sees the ball airborne, the collision pass found no platform, and
the jump handler runs with the ball in the air. -/
def staysOffPlatform : GameEvent → Bool
  | GameEvent.physicsTick _ _ _ _ _ env => !env.onPlatformNow
  | GameEvent.jetpackTick _ _ => true
  | GameEvent.collide info _ => !info.onPlatform
  | GameEvent.pressJump onPlatform => !onPlatform
  | GameEvent.releaseSpace => true

/-- An event that is not a jetpack tick consuming the final fuel unit
(the path of updateJetpack that re-arms the double jump). -/
def noJetpackRearm : GameEvent → Bool
  | GameEvent.jetpackTick active fuel => !(active && decide (fuel = 1))
  | _ => true

/-- The left fold of checkFallOutOfBounds that computes the highest
platform Y, started from minus infinity (modelled as none). -/
def highestYAux (acc : Option ℚ) : List PlatformData → Option ℚ
  | [] => acc
  | p :: rest =>
      let acc1 :=
        match acc with
        | none => some p.pos.y
        | some a => if a < p.pos.y then some p.pos.y else some a
      highestYAux acc1 rest

/-- checkFallOutOfBounds of src/js/systems/collision.js: with no
platforms return false; otherwise collect the platforms that are ahead
of the ball or below it, fall back to all platforms when that set is
empty, and report game over when the ball's Y is more than the fall
threshold below the highest Y of the reference set. -/
def checkFallOutOfBounds (ballPos : Vec3) (platforms : List PlatformData)
    (fallThreshold : ℚ := 30) : Bool :=
  if platforms = [] then false
  else
    let validPlatforms := platforms.filter fun p =>
      decide (p.pos.z ≤ ballPos.z) || decide (p.pos.y ≤ ballPos.y)
    let validPlatforms1 := if validPlatforms = [] then platforms else validPlatforms
    match highestYAux none validPlatforms1 with
    | some highestPlatformY => decide (ballPos.y < highestPlatformY - fallThreshold)
    | none => false

/-- The reference platform set of the fall check, as the claim words it:
the platforms ahead of the ball or below it, or all platforms when no
platform qualifies. -/
def fallReference (ballPos : Vec3) (platforms : List PlatformData) :
    List PlatformData :=
  let validPlatforms := platforms.filter fun p =>
    decide (p.pos.z ≤ ballPos.z) || decide (p.pos.y ≤ ballPos.y)
  if validPlatforms = [] then platforms else validPlatforms

/-- A 3-component vector of reals, for the trigonometric platform
trajectories. -/
structure V3R where
  x : ℝ
  y : ℝ
  z : ℝ

/-- The six movement types of PLATFORM_MOVEMENT.types. -/
inductive MovementType where
  | horizontal
  | vertical
  | diagonal
  | orbital
  | figure8
  | pendulum
deriving DecidableEq, Repr

/-- The swing axis of a pendulum platform. -/
inductive PendulumAxis where
  | x
  | y
deriving DecidableEq, Repr

/-- The kinematic state of one platform: its position and the userData
movement fields written at spawn (original position, phase accumulator,
speed, and the parameters of each movement kind). -/
structure MovingPlatform where
  pos : V3R
  isMovingPlatform : Bool
  movementType : MovementType
  originalPosition : V3R
  lastPosition : V3R
  movementProgress : ℝ
  movementSpeed : ℝ
  movementRange : ℝ
  movementRangeX : ℝ
  movementRangeY : ℝ
  diagonalDirection : ℝ
  orbitalRadius : ℝ
  figure8ScaleX : ℝ
  figure8ScaleY : ℝ
  pendulumLength : ℝ
  pendulumAxis : PendulumAxis

/-- The per-platform body of updateMovingPlatforms in the platform module
of src/js/utils/helpers.js: for a moving platform, cache the current
position as lastPosition, advance the phase accumulator by
movementSpeed times deltaTime times 60, and set the position from the
original (spawn) position by the closed-form trajectory of the movement
type. -/
noncomputable def updateMovingPlatform (deltaTime : ℝ) (p : MovingPlatform) :
    MovingPlatform :=
  if p.isMovingPlatform then
    let p1 := { p with lastPosition := p.pos }
    let p2 := { p1 with
      movementProgress := p1.movementProgress + p1.movementSpeed * deltaTime * 60 }
    match p2.movementType with
    | MovementType.horizontal =>
        { p2 with pos := { p2.pos with
            x := p2.originalPosition.x +
              Real.sin p2.movementProgress * p2.movementRange } }
    | MovementType.vertical =>
        { p2 with pos := { p2.pos with
            y := p2.originalPosition.y +
              Real.sin p2.movementProgress * p2.movementRange } }
    | MovementType.diagonal =>
        { p2 with pos := { p2.pos with
            x := p2.originalPosition.x +
              Real.sin p2.movementProgress * p2.movementRangeX *
                p2.diagonalDirection,
            y := p2.originalPosition.y +
              Real.sin p2.movementProgress * p2.movementRangeY } }
    | MovementType.orbital =>
        { p2 with pos := { p2.pos with
            x := p2.originalPosition.x +
              Real.cos p2.movementProgress * p2.orbitalRadius,
            z := p2.originalPosition.z +
              Real.sin p2.movementProgress * p2.orbitalRadius } }
    | MovementType.figure8 =>
        { p2 with pos := { p2.pos with
            x := p2.originalPosition.x +
              Real.sin p2.movementProgress * p2.figure8ScaleX,
            y := p2.originalPosition.y +
              Real.sin (p2.movementProgress * 2) * p2.figure8ScaleY / 2 } }
    | MovementType.pendulum =>
        match p2.pendulumAxis with
        | PendulumAxis.x =>
            { p2 with pos := { p2.pos with
                x := p2.originalPosition.x +
                  Real.sin p2.movementProgress * p2.pendulumLength } }
        | PendulumAxis.y =>
            { p2 with pos := { p2.pos with
                y := p2.originalPosition.y +
                  Real.sin p2.movementProgress * p2.pendulumLength } }
  else p

/-- updateMovingPlatforms applies the per-platform update to every
platform of the list. -/
noncomputable def updateMovingPlatforms (deltaTime : ℝ)
    (platforms : List MovingPlatform) : List MovingPlatform :=
  platforms.map (updateMovingPlatform deltaTime)

/-- The moving-platform co-movement of updateBallPosition: when the ball
rests on a moving platform, add the platform's position delta since the
last frame (current position minus cached lastPosition) to the ball's
position. -/
def rideMovingPlatform (ballPos : V3R) (p : MovingPlatform) : V3R :=
  { x := ballPos.x + (p.pos.x - p.lastPosition.x),
    y := ballPos.y + (p.pos.y - p.lastPosition.y),
    z := ballPos.z + (p.pos.z - p.lastPosition.z) }

/-- The goal (red flag) platform of the spec scenario: a disc of radius
12 centered at the origin, a speed-boost trampoline with the red-flag
role, exactly as createPlatform builds it for isRedFlag. -/
def goalPlatform : PlatformData :=
  { pos := ⟨0, 0, 0⟩
    width := 24
    depth := 24
    radius := 12
    isRoundPlatform := true
    isTrampoline := true
    isSlowDownTrampoline := false
    bounceEffect := some BounceEffect.forward
    isRedFlagPlatform := true }

/-- A ball state falling with vertical velocity -0.2, for concrete
evaluations. -/
def fallingBall : BallState :=
  { pos := ⟨0, 1.05, 0⟩
    vel := ⟨0, -0.2, 0⟩
    isJumping := false
    hasDoubleJumped := true
    jumpChargeTime := 0
    airEntryMethod := AirEntry.jumped
    wasOnPlatform := false
    extraJumps := 0 }

/-- Collision info of a landing on a speed-boost trampoline. -/
def forwardInfo : PlatformInfo :=
  { onPlatform := true
    bounceEffect := some BounceEffect.forward
    isRedFlagPlatform := false
    platformY := some 0.5
    ballRadius := some ballRadius
    isTrampoline := none }

/-- Collision info of a landing on a slow-down trampoline. -/
def backwardInfo : PlatformInfo :=
  { onPlatform := true
    bounceEffect := some BounceEffect.backward
    isRedFlagPlatform := false
    platformY := some 0.5
    ballRadius := some ballRadius
    isTrampoline := none }

/-- An airborne ball that entered the air by jumping and has not yet
double jumped. -/
def airborneTick : TickState :=
  { ball :=
      { pos := ⟨0, 5, 0⟩
        vel := ⟨0, 0.1, 0⟩
        isJumping := true
        hasDoubleJumped := false
        jumpChargeTime := 0
        airEntryMethod := AirEntry.jumped
        wasOnPlatform := false
        extraJumps := 0 }
    keySpace := false }

/-- An event trace that stays airborne throughout: a jump press (the
double jump), a key release, a jetpack tick that consumes the final fuel
unit, and another jump press. -/
def rearmTrace : List GameEvent :=
  [GameEvent.pressJump false,
   GameEvent.releaseSpace,
   GameEvent.jetpackTick true 1,
   GameEvent.pressJump false]

/-- An airborne ball whose jump chain is exhausted: the double jump is
used and no extra-jump credit remains. -/
def exhaustedTick : TickState :=
  { ball :=
      { pos := ⟨0, 5, 0⟩
        vel := ⟨0, 0.1, 0⟩
        isJumping := false
        hasDoubleJumped := true
        jumpChargeTime := 0
        airEntryMethod := AirEntry.bounced
        wasOnPlatform := false
        extraJumps := 0 }
    keySpace := false }

/-- A horizontal-motion platform at phase 0 with range 5 and speed 1,
anchored at the origin. -/
noncomputable def pHoriz : MovingPlatform :=
  { pos := ⟨0, 0, 0⟩
    isMovingPlatform := true
    movementType := MovementType.horizontal
    originalPosition := ⟨0, 0, 0⟩
    lastPosition := ⟨0, 0, 0⟩
    movementProgress := 0
    movementSpeed := 1
    movementRange := 5
    movementRangeX := 0
    movementRangeY := 0
    diagonalDirection := 1
    orbitalRadius := 0
    figure8ScaleX := 0
    figure8ScaleY := 0
    pendulumLength := 0
    pendulumAxis := PendulumAxis.x }

/-! ## Theorems -/

/-- Helper: checkPlatformCollision never writes an isTrampoline property
into the object it returns, whatever the ball state and platform list. -/
theorem checkPlatformCollision_isTrampoline_none (bp bv : Vec3) :
    ∀ ps : List PlatformData, (checkPlatformCollision bp bv ps).isTrampoline = none := by
  intro ps
  induction ps with
  | nil => rfl
  | cons p rest ih =>
      by_cases h : platformCollides bp bv p = true
      · simp [checkPlatformCollision, h, collisionInfoOf]
      · simp [checkPlatformCollision, h, ih]

/-- C1.  The claim says handlePlatformCollisions invokes the
goal-reached callback whenever the falling ball contacts the goal
platform.  The code guards the callback with
platformInfo.isRedFlagPlatform and platformInfo.isTrampoline, but
checkPlatformCollision never returns an isTrampoline property, so the
guard is always false and the callback is never invoked — even in the
spec scenario, where the collision itself is detected and reported as a
red-flag speed-boost contact. -/
theorem goal_callback_never_invoked :
    (∀ (platforms : List PlatformData) (speed : ℚ) (s : BallState),
        (handlePlatformCollisions platforms speed s).redFlagCallbackInvoked = false) ∧
    (checkPlatformCollision ⟨0, 1.05, 0⟩ ⟨0, -0.2, 0⟩ [goalPlatform]).onPlatform = true ∧
    (checkPlatformCollision ⟨0, 1.05, 0⟩ ⟨0, -0.2, 0⟩ [goalPlatform]).isRedFlagPlatform = true ∧
    (checkPlatformCollision ⟨0, 1.05, 0⟩ ⟨0, -0.2, 0⟩ [goalPlatform]).bounceEffect =
      some BounceEffect.forward := by
  have hhit : platformCollides ⟨0, 1.05, 0⟩ ⟨0, -0.2, 0⟩ goalPlatform = true := by
    norm_num [platformCollides, goalPlatform, ballRadius, abs_le]
  have hinfo :
      checkPlatformCollision ⟨0, 1.05, 0⟩ ⟨0, -0.2, 0⟩ [goalPlatform] =
        collisionInfoOf goalPlatform := by
    simp [checkPlatformCollision, hhit]
  refine ⟨?_, ?_, ?_, ?_⟩
  · intro platforms speed s
    have h := checkPlatformCollision_isTrampoline_none s.pos s.vel platforms
    unfold handlePlatformCollisions handleCollisionInfo
    split <;> simp [h]
  · rw [hinfo]; rfl
  · rw [hinfo]; rfl
  · rw [hinfo]; rfl

/-- C2.  The claim says a slow-down landing never drops the base speed
below the configured minimum-speed floor.  config.js defines no minSpeed
field, so the clamp in the backward branch compares against undefined
and never fires: landing at base speed 0.03 returns -0.02, a negative
speed below any positive floor. -/
theorem slowdown_speed_floor_missing :
    GAME_SETTINGS.minSpeed = none ∧
    (applyPlatformEffects backwardInfo (3/100) fallingBall).2 = -(1/50) ∧
    (applyPlatformEffects backwardInfo (3/100) fallingBall).2 < 0 := by
  refine ⟨rfl, ?_, ?_⟩ <;>
    norm_num [applyPlatformEffects, backwardInfo, fallingBall, GAME_SETTINGS]

/-- C5.  Landing (downward velocity, on platform) on a speed-boost
trampoline sets the vertical velocity to exactly 1.5 times the maximum
jump force, subtracts 0.1 from the z velocity (a forward impulse),
returns the base speed raised by exactly 0.025, and leaves the
double-jump flag cleared. -/
theorem speed_boost_landing_effects (info : PlatformInfo) (speed : ℚ) (s : BallState)
    (hOn : info.onPlatform = true)
    (hEff : info.bounceEffect = some BounceEffect.forward)
    (hFall : s.vel.y < 0) :
    (applyPlatformEffects info speed s).1.vel.y = GAME_SETTINGS.maxJumpForce * 1.5 ∧
    (applyPlatformEffects info speed s).1.vel.z = s.vel.z - 0.1 ∧
    (applyPlatformEffects info speed s).2 = speed + 0.025 ∧
    (applyPlatformEffects info speed s).1.hasDoubleJumped = false := by
  simp [applyPlatformEffects, hOn, hEff, hFall]

/-- Witness for C5 at a concrete landing. -/
theorem speed_boost_landing_effects_witness :
    (applyPlatformEffects forwardInfo 0.15 fallingBall).1.vel.y =
      GAME_SETTINGS.maxJumpForce * 1.5 ∧
    (applyPlatformEffects forwardInfo 0.15 fallingBall).1.vel.z =
      fallingBall.vel.z - 0.1 ∧
    (applyPlatformEffects forwardInfo 0.15 fallingBall).2 = 0.15 + 0.025 ∧
    (applyPlatformEffects forwardInfo 0.15 fallingBall).1.hasDoubleJumped = false :=
  speed_boost_landing_effects forwardInfo 0.15 fallingBall rfl rfl
    (by norm_num [fallingBall])

/-- C9.  When the jetpack is active and consumes its final fuel unit,
updateJetpack sets the jumping flag, clears the double-jump flag (so a
fresh in-air double jump is available without landing), adds the boost
force to the vertical velocity, and leaves the fuel at 0. -/
theorem jetpack_depletion_grants_double_jump (s : BallState) :
    (updateJetpack true true 1 s).2 = 0 ∧
    (updateJetpack true true 1 s).1.isJumping = true ∧
    (updateJetpack true true 1 s).1.hasDoubleJumped = false ∧
    (updateJetpack true true 1 s).1.vel.y = s.vel.y + GAME_SETTINGS.jetpackBoostForce := by
  simp [updateJetpack]

/-- C6.  For every draw of the random values in the unit interval, the
next platform's Y either stays level or descends by between 2 and 6
units (never rises), and its Z is ahead of the previous platform's by a
gap between 6 and 11.25 units. -/
theorem platform_descent_and_gap_bounds
    (lastY lastZ heightVariation randY randZ : ℚ)
    (hy0 : 0 ≤ randY) (hy1 : randY < 1)
    (hz0 : 0 ≤ randZ) (hz1 : randZ < 1) :
    (nextPlatformY lastY heightVariation randY ≤ lastY) ∧
    (nextPlatformY lastY heightVariation randY = lastY ∨
      (2 ≤ lastY - nextPlatformY lastY heightVariation randY ∧
       lastY - nextPlatformY lastY heightVariation randY ≤ 6)) ∧
    (6 ≤ lastZ - nextPlatformZ lastZ randZ) ∧
    (lastZ - nextPlatformZ lastZ randZ ≤ 11.25) := by
  unfold nextPlatformY nextPlatformZ
  by_cases h : heightVariation < 0.8
  · rw [if_pos h]
    refine ⟨by linarith, Or.inr ⟨by linarith, by linarith⟩, by linarith, by linarith⟩
  · rw [if_neg h]
    refine ⟨le_refl _, Or.inl rfl, by linarith, by linarith⟩

/-- Witness for C6 at concrete draws. -/
theorem platform_descent_and_gap_bounds_witness :
    (nextPlatformY 0 (1/2) (1/2) ≤ 0) ∧
    (nextPlatformY 0 (1/2) (1/2) = 0 ∨
      (2 ≤ 0 - nextPlatformY 0 (1/2) (1/2) ∧ 0 - nextPlatformY 0 (1/2) (1/2) ≤ 6)) ∧
    (6 ≤ 0 - nextPlatformZ 0 (1/2)) ∧
    (0 - nextPlatformZ 0 (1/2) ≤ 11.25) :=
  platform_descent_and_gap_bounds 0 0 (1/2) (1/2) (1/2) (by norm_num) (by norm_num)
    (by norm_num) (by norm_num)

/-- Counterexample for C3: from the center lane, the draw 0.92 selects
far-far-left, which is four steps away in the 9-lane ordering — not at
most one. -/
theorem lane_step_claim_false :
    nextLane Lane.center (92/100) = Lane.farFarLeft ∧
    |laneIdx (nextLane Lane.center (92/100)) - laneIdx Lane.center| = 4 ∧
    ¬(|laneIdx (nextLane Lane.center (92/100)) - laneIdx Lane.center| ≤ 1) := by
  have h : nextLane Lane.center (92/100) = Lane.farFarLeft := by
    norm_num [nextLane]
  rw [h]
  exact ⟨rfl, by decide, by decide⟩

/-- C3 (amended).  For every previous lane and every draw, the next lane
is at most four steps away in the 9-lane ordering, and at most two steps
away whenever the previous lane is not center. -/
theorem lane_step_bounded (lane : Lane) (rand : ℚ) :
    |laneIdx (nextLane lane rand) - laneIdx lane| ≤ 4 ∧
    (lane ≠ Lane.center → |laneIdx (nextLane lane rand) - laneIdx lane| ≤ 2) := by
  cases lane <;> simp only [nextLane] <;> (try split_ifs) <;>
    first
      | exact ⟨by decide, fun _ => by decide⟩
      | exact ⟨by decide, fun h => absurd rfl h⟩

/-- Witness for C3's amended bound at a concrete lane and draw. -/
theorem lane_step_bounded_witness :
    |laneIdx (nextLane Lane.farLeft (1/2)) - laneIdx Lane.farLeft| ≤ 4 ∧
    |laneIdx (nextLane Lane.farLeft (1/2)) - laneIdx Lane.farLeft| ≤ 2 :=
  ⟨(lane_step_bounded Lane.farLeft (1/2)).1,
   (lane_step_bounded Lane.farLeft (1/2)).2 (by decide)⟩

/-- Helper: the highest-Y fold of checkFallOutOfBounds exceeds a bound c
exactly when some platform of the list, or the seed, does. -/
theorem highestYAux_lt_iff (c : ℚ) :
    ∀ (l : List PlatformData) (acc : Option ℚ),
      (∃ m, highestYAux acc l = some m ∧ c < m) ↔
        ((∃ p ∈ l, c < p.pos.y) ∨ (∃ a, acc = some a ∧ c < a)) := by
  intro l
  induction l with
  | nil =>
      intro acc
      simp [highestYAux]
  | cons p rest ih =>
      intro acc
      cases acc with
      | none =>
          rw [show highestYAux none (p :: rest) = highestYAux (some p.pos.y) rest
                from rfl,
              ih]
          constructor
          · rintro (⟨q, hq, hc⟩ | ⟨a, ha, hc⟩)
            · exact Or.inl ⟨q, List.mem_cons_of_mem p hq, hc⟩
            · exact Or.inl ⟨p, List.mem_cons_self p rest, by
                cases ha; exact hc⟩
          · rintro (⟨q, hq, hc⟩ | ⟨a, ha, hc⟩)
            · rcases List.mem_cons.mp hq with h | h
              · exact Or.inr ⟨p.pos.y, rfl, h ▸ hc⟩
              · exact Or.inl ⟨q, h, hc⟩
            · exact absurd ha (by simp)
      | some a =>
          by_cases hlt : a < p.pos.y
          · rw [show highestYAux (some a) (p :: rest) =
                  highestYAux (if a < p.pos.y then some p.pos.y else some a) rest
                  from rfl,
                if_pos hlt, ih]
            constructor
            · rintro (⟨q, hq, hc⟩ | ⟨b, hb, hc⟩)
              · exact Or.inl ⟨q, List.mem_cons_of_mem p hq, hc⟩
              · exact Or.inl ⟨p, List.mem_cons_self p rest, by
                  cases hb; exact hc⟩
            · rintro (⟨q, hq, hc⟩ | ⟨b, hb, hc⟩)
              · rcases List.mem_cons.mp hq with h | h
                · exact Or.inr ⟨p.pos.y, rfl, h ▸ hc⟩
                · exact Or.inl ⟨q, h, hc⟩
              · cases hb
                exact Or.inr ⟨p.pos.y, rfl, lt_trans hc hlt⟩
          · rw [show highestYAux (some a) (p :: rest) =
                  highestYAux (if a < p.pos.y then some p.pos.y else some a) rest
                  from rfl,
                if_neg hlt, ih]
            constructor
            · rintro (⟨q, hq, hc⟩ | ⟨b, hb, hc⟩)
              · exact Or.inl ⟨q, List.mem_cons_of_mem p hq, hc⟩
              · exact Or.inr ⟨b, hb, hc⟩
            · rintro (⟨q, hq, hc⟩ | ⟨b, hb, hc⟩)
              · rcases List.mem_cons.mp hq with h | h
                · refine Or.inr ⟨a, rfl, ?_⟩
                  have hya : p.pos.y ≤ a := le_of_not_lt hlt
                  exact lt_of_lt_of_le (h ▸ hc) hya
                · exact Or.inl ⟨q, h, hc⟩
              · exact Or.inr ⟨b, hb, hc⟩

/-- C10.  checkFallOutOfBounds returns false on an empty platform list,
and on a non-empty list it returns true exactly when the ball's Y is
more than the threshold below the Y of some platform of the reference
set (equivalently, of the highest one) — where the reference set is the
platforms ahead of or below the ball, falling back to all platforms when
none qualifies. -/
theorem fall_out_of_bounds_characterization (ballPos : Vec3)
    (platforms : List PlatformData) (thr : ℚ) :
    (checkFallOutOfBounds ballPos platforms thr = true ↔
      platforms ≠ [] ∧
        ∃ p ∈ fallReference ballPos platforms, ballPos.y < p.pos.y - thr) ∧
    (platforms = [] → checkFallOutOfBounds ballPos platforms thr = false) := by
  by_cases hemp : platforms = []
  · subst hemp
    simp [checkFallOutOfBounds]
  · refine ⟨?_, fun h => absurd h hemp⟩
    have h := highestYAux_lt_iff (ballPos.y + thr)
      (fallReference ballPos platforms) none
    simp only [checkFallOutOfBounds, fallReference] at h ⊢
    rw [if_neg hemp]
    cases hm : highestYAux none
        (if (platforms.filter fun p =>
              decide (p.pos.z ≤ ballPos.z) || decide (p.pos.y ≤ ballPos.y)) = []
         then platforms
         else platforms.filter fun p =>
              decide (p.pos.z ≤ ballPos.z) || decide (p.pos.y ≤ ballPos.y)) with
    | none =>
        rw [hm] at h
        simp only [hm]
        simp only [reduceCtorEq, false_and, exists_const, or_false, false_iff] at h
        simp only [Bool.false_eq_true, false_iff, not_and]
        intro _ hex
        rcases hex with ⟨p, hp, hc⟩
        exact h ⟨p, hp, by linarith⟩
    | some m =>
        rw [hm] at h
        simp only [hm, decide_eq_true_eq]
        constructor
        · intro hc
          refine ⟨hemp, ?_⟩
          have : ∃ q ∈ (if (platforms.filter fun p =>
                decide (p.pos.z ≤ ballPos.z) || decide (p.pos.y ≤ ballPos.y)) = []
              then platforms
              else platforms.filter fun p =>
                decide (p.pos.z ≤ ballPos.z) || decide (p.pos.y ≤ ballPos.y)),
              ballPos.y + thr < q.pos.y := by
            rcases h.mp ⟨m, rfl, by linarith⟩ with hq | ⟨a, ha, _⟩
            · exact hq
            · exact absurd ha (by simp)
          rcases this with ⟨q, hq, hcq⟩
          exact ⟨q, hq, by linarith⟩
        · rintro ⟨-, q, hq, hcq⟩
          rcases h.mpr (Or.inl ⟨q, hq, by linarith⟩) with ⟨m', hm', hcm⟩
          cases hm'
          linarith

/-- Witness for C10: the empty-world case evaluated concretely. -/
theorem fall_out_of_bounds_characterization_witness :
    checkFallOutOfBounds ⟨0, 0, 0⟩ [] 30 = false :=
  (fall_out_of_bounds_characterization ⟨0, 0, 0⟩ [] 30).2 rfl

/-- Helper: field changes of a first jump (jump with both flags false):
the extra-jump counter, the was-on-platform flag are kept, the jumping
flag is set, the double-jump flag is cleared, and in the air the entry
method is kept. -/
theorem jump_first_fields (s : BallState) :
    (jump false false s).extraJumps = s.extraJumps ∧
    (jump false false s).hasDoubleJumped = false ∧
    (jump false false s).isJumping = true ∧
    (jump false false s).wasOnPlatform = s.wasOnPlatform ∧
    (s.wasOnPlatform = false → (jump false false s).airEntryMethod = s.airEntryMethod) := by
  cases hw : s.wasOnPlatform <;> simp [jump, hw]

/-- Helper: field changes of a double jump: only the vertical velocity
and the double-jump flag (set to true) change. -/
theorem jump_double_fields (s : BallState) :
    (jump true false s).extraJumps = s.extraJumps ∧
    (jump true false s).hasDoubleJumped = true ∧
    (jump true false s).isJumping = s.isJumping ∧
    (jump true false s).wasOnPlatform = s.wasOnPlatform ∧
    (jump true false s).airEntryMethod = s.airEntryMethod := by
  simp [jump]

/-- Helper: field changes of an extra jump: only the vertical velocity
and the extra-jump counter (decremented by one) change. -/
theorem jump_extra_fields (s : BallState) :
    (jump false true s).extraJumps = s.extraJumps - 1 ∧
    (jump false true s).hasDoubleJumped = s.hasDoubleJumped ∧
    (jump false true s).isJumping = s.isJumping ∧
    (jump false true s).wasOnPlatform = s.wasOnPlatform ∧
    (jump false true s).airEntryMethod = s.airEntryMethod := by
  simp [jump]

/-- C8.  Processing a jump input changes the extra-jump credit either
not at all or by exactly -1 (and only when it was positive), never
drives a non-negative credit negative, and is a strict no-op when the
jump chain is exhausted: ball in the air, double jump used, no credits
left (under the run-time invariant that a fell entry with the
double-jump flag set implies the jumping flag). -/
theorem extra_jump_credit_safety (st : TickState) (onPlatform : Bool) :
    ((handleJumpInput onPlatform st).1.ball.extraJumps = st.ball.extraJumps ∨
      (0 < st.ball.extraJumps ∧
        (handleJumpInput onPlatform st).1.ball.extraJumps = st.ball.extraJumps - 1)) ∧
    (0 ≤ st.ball.extraJumps → 0 ≤ (handleJumpInput onPlatform st).1.ball.extraJumps) ∧
    (st.keySpace = false → onPlatform = false →
      st.ball.hasDoubleJumped = true → st.ball.extraJumps = 0 →
      (st.ball.airEntryMethod = AirEntry.fell → st.ball.isJumping = true) →
      handleJumpInput onPlatform st = (st, false)) := by
  have hf := jump_first_fields st.ball
  have hd := jump_double_fields st.ball
  have he := jump_extra_fields st.ball
  dsimp only [handleJumpInput]
  by_cases hC1 : (!st.keySpace && !st.ball.isJumping && onPlatform) = true
  · rw [if_pos hC1]; dsimp only
    refine ⟨Or.inl hf.1, fun h => by rw [hf.1]; exact h, ?_⟩
    intro _ honp _ _ _
    rw [honp] at hC1; simp at hC1
  · rw [if_neg hC1]
    by_cases hC2 : (!st.keySpace && !onPlatform) = true
    · rw [if_pos hC2]
      by_cases hC3 : (!st.ball.isJumping &&
          decide (st.ball.airEntryMethod = AirEntry.fell)) = true
      · rw [if_pos hC3]; dsimp only
        refine ⟨Or.inl hf.1, fun h => by rw [hf.1]; exact h, ?_⟩
        intro _ _ _ _ hinv
        simp only [Bool.and_eq_true, Bool.not_eq_true', decide_eq_true_eq] at hC3
        rw [hinv hC3.2] at hC3
        simp at hC3
      · rw [if_neg hC3]
        by_cases hC4 : (!st.ball.hasDoubleJumped) = true
        · rw [if_pos hC4]
          by_cases hC5 : (decide (st.ball.airEntryMethod = AirEntry.jumped) ||
              decide (st.ball.airEntryMethod = AirEntry.bounced) ||
              decide (st.ball.airEntryMethod = AirEntry.rolled)) = true
          · rw [if_pos hC5]; dsimp only
            refine ⟨Or.inl hd.1, fun h => by rw [hd.1]; exact h, ?_⟩
            intro _ _ hdj _ _
            rw [hdj] at hC4; simp at hC4
          · rw [if_neg hC5]
            by_cases hC6 : (decide (st.ball.airEntryMethod = AirEntry.fell) &&
                st.ball.isJumping) = true
            · rw [if_pos hC6]; dsimp only
              refine ⟨Or.inl hd.1, fun h => by rw [hd.1]; exact h, ?_⟩
              intro _ _ hdj _ _
              rw [hdj] at hC4; simp at hC4
            · rw [if_neg hC6]; dsimp only
              exact ⟨Or.inl rfl, fun h => h, fun _ _ _ _ _ => rfl⟩
        · rw [if_neg hC4]
          by_cases hC7 : (st.ball.hasDoubleJumped &&
              decide (0 < st.ball.extraJumps)) = true
          · rw [if_pos hC7]; dsimp only
            have hpos : 0 < st.ball.extraJumps := by
              simp only [Bool.and_eq_true, decide_eq_true_eq] at hC7
              exact hC7.2
            refine ⟨Or.inr ⟨hpos, he.1⟩, fun h => by rw [he.1]; omega, ?_⟩
            intro _ _ _ hext _
            omega
          · rw [if_neg hC7]; dsimp only
            exact ⟨Or.inl rfl, fun h => h, fun _ _ _ _ _ => rfl⟩
    · rw [if_neg hC2]; dsimp only
      exact ⟨Or.inl rfl, fun h => h, fun _ _ _ _ _ => rfl⟩

/-- Witness for C8: a jump input with the chain exhausted is a no-op. -/
theorem extra_jump_credit_safety_witness :
    handleJumpInput false exhaustedTick = (exhaustedTick, false) ∧
    0 ≤ (handleJumpInput false exhaustedTick).1.ball.extraJumps :=
  ⟨(extra_jump_credit_safety exhaustedTick false).2.2 rfl rfl rfl rfl
      (fun h => absurd h (by simp [exhaustedTick])),
   (extra_jump_credit_safety exhaustedTick false).2.1 (by norm_num [exhaustedTick])⟩

/-- Helper: a physics tick that sees the ball airborne, starting from a
state already airborne on the previous frame, changes neither the jump
flags nor the entry method nor the credits, and leaves the
was-on-platform flag false. -/
theorem updateBallPosition_airborne_fields (keys : Keys) (dt speed : ℚ)
    (active : Bool) (fuel : ℤ) (env : TickEnv) (s : BallState)
    (hwas : s.wasOnPlatform = false) (henv : env.onPlatformNow = false) :
    (updateBallPosition keys dt speed active fuel env s).hasDoubleJumped =
      s.hasDoubleJumped ∧
    (updateBallPosition keys dt speed active fuel env s).airEntryMethod =
      s.airEntryMethod ∧
    (updateBallPosition keys dt speed active fuel env s).isJumping = s.isJumping ∧
    (updateBallPosition keys dt speed active fuel env s).wasOnPlatform = false ∧
    (updateBallPosition keys dt speed active fuel env s).extraJumps = s.extraJumps := by
  unfold updateBallPosition
  simp [hwas, henv]

/-- Helper: a jetpack tick that does not consume the final fuel unit
changes only the vertical velocity and the fuel. -/
theorem updateJetpack_no_deplete_fields (active : Bool) (fuel : ℤ) (s : BallState)
    (h : active = true → fuel ≠ 1) :
    (updateJetpack true active fuel s).1.hasDoubleJumped = s.hasDoubleJumped ∧
    (updateJetpack true active fuel s).1.airEntryMethod = s.airEntryMethod ∧
    (updateJetpack true active fuel s).1.isJumping = s.isJumping ∧
    (updateJetpack true active fuel s).1.wasOnPlatform = s.wasOnPlatform ∧
    (updateJetpack true active fuel s).1.extraJumps = s.extraJumps := by
  cases active with
  | false => simp [updateJetpack]
  | true =>
      have hne : fuel ≠ 1 := h rfl
      by_cases hf : 0 < fuel
      · simp [updateJetpack, hf, hne]
      · simp [updateJetpack, hf]

/-- Helper: a collision pass that found no platform leaves the ball state
unchanged. -/
theorem handleCollisionInfo_miss (info : PlatformInfo) (speed : ℚ) (s : BallState)
    (h : info.onPlatform = false) :
    (handleCollisionInfo info speed s).ball = s := by
  unfold handleCollisionInfo applyPlatformEffects
  simp [h]

/-- Helper: releasing the space key changes only the vertical velocity
and the key flag. -/
theorem releaseSpaceKey_fields (st : TickState) :
    (releaseSpaceKey st).ball.hasDoubleJumped = st.ball.hasDoubleJumped ∧
    (releaseSpaceKey st).ball.airEntryMethod = st.ball.airEntryMethod ∧
    (releaseSpaceKey st).ball.isJumping = st.ball.isJumping ∧
    (releaseSpaceKey st).ball.wasOnPlatform = st.ball.wasOnPlatform ∧
    (releaseSpaceKey st).ball.extraJumps = st.ball.extraJumps := by
  by_cases h : (st.keySpace && st.ball.isJumping) = true <;>
    simp [releaseSpaceKey, h]

/-- Helper: behavior of the jump-input handler in the air, under the
run-time invariant relating the fell entry, the double-jump flag and the
jumping flag.  The handler grants a double jump only when the flag is
clear and then sets it; it never clears a set flag; and it preserves the
was-on-platform flag and the invariant. -/
theorem handleJumpInput_airborne (st : TickState)
    (hwas : st.ball.wasOnPlatform = false)
    (hinv : st.ball.airEntryMethod = AirEntry.fell →
      st.ball.hasDoubleJumped = true → st.ball.isJumping = true) :
    (handleJumpInput false st).1.ball.wasOnPlatform = false ∧
    ((handleJumpInput false st).1.ball.airEntryMethod = AirEntry.fell →
      (handleJumpInput false st).1.ball.hasDoubleJumped = true →
      (handleJumpInput false st).1.ball.isJumping = true) ∧
    (st.ball.hasDoubleJumped = true →
      (handleJumpInput false st).2 = false ∧
      (handleJumpInput false st).1.ball.hasDoubleJumped = true) ∧
    ((handleJumpInput false st).2 = true →
      (handleJumpInput false st).1.ball.hasDoubleJumped = true) ∧
    (st.ball.hasDoubleJumped = false → (handleJumpInput false st).2 = false →
      (handleJumpInput false st).1.ball.hasDoubleJumped = false) := by
  have hf := jump_first_fields st.ball
  have hd := jump_double_fields st.ball
  have he := jump_extra_fields st.ball
  dsimp only [handleJumpInput]
  rw [if_neg (by simp)]
  by_cases hks : st.keySpace = true
  · rw [if_neg (by simp [hks])]; dsimp only
    exact ⟨hwas, hinv, fun h => ⟨rfl, h⟩, fun h => absurd h (by simp),
      fun h _ => h⟩
  · have hks0 : st.keySpace = false := by
      cases h : st.keySpace
      · rfl
      · exact absurd h hks
    have hks' : (!st.keySpace && !false) = true := by simp [hks0]
    rw [if_pos hks']
    by_cases hC3 : (!st.ball.isJumping &&
        decide (st.ball.airEntryMethod = AirEntry.fell)) = true
    · rw [if_pos hC3]; dsimp only
      simp only [Bool.and_eq_true, Bool.not_eq_true', decide_eq_true_eq] at hC3
      refine ⟨hwas ▸ hf.2.2.2.1, ?_, ?_, fun h => absurd h (by simp),
        fun _ _ => hf.2.1⟩
      · intro _ hflag
        rw [hf.2.1] at hflag
        exact absurd hflag (by simp)
      · intro hflag
        rw [hinv hC3.2 hflag] at hC3
        simp at hC3
    · rw [if_neg hC3]
      by_cases hC4 : (!st.ball.hasDoubleJumped) = true
      · rw [if_pos hC4]
        have hflag0 : st.ball.hasDoubleJumped = false := by
          simpa using hC4
        by_cases hC5 : (decide (st.ball.airEntryMethod = AirEntry.jumped) ||
            decide (st.ball.airEntryMethod = AirEntry.bounced) ||
            decide (st.ball.airEntryMethod = AirEntry.rolled)) = true
        · rw [if_pos hC5]; dsimp only
          refine ⟨hd.2.2.2.1 ▸ hwas, ?_, ?_, fun _ => hd.2.1, ?_⟩
          · intro hfell _
            rw [hd.2.2.2.2] at hfell
            simp only [Bool.or_eq_true, decide_eq_true_eq] at hC5
            rcases hC5 with (h | h) | h <;> rw [h] at hfell <;> cases hfell
          · intro h; rw [h] at hflag0; cases hflag0
          · intro _ h; cases h
        · rw [if_neg hC5]
          by_cases hC6 : (decide (st.ball.airEntryMethod = AirEntry.fell) &&
              st.ball.isJumping) = true
          · rw [if_pos hC6]; dsimp only
            simp only [Bool.and_eq_true, decide_eq_true_eq] at hC6
            refine ⟨hd.2.2.2.1 ▸ hwas, ?_, ?_, fun _ => hd.2.1, ?_⟩
            · intro _ _
              rw [hd.2.2.1]
              exact hC6.2
            · intro h; rw [h] at hflag0; cases hflag0
            · intro _ h; cases h
          · rw [if_neg hC6]; dsimp only
            exact ⟨hwas, hinv, fun h => ⟨rfl, h⟩, fun h => absurd h (by simp),
              fun h _ => h⟩
      · rw [if_neg hC4]
        have hflag1 : st.ball.hasDoubleJumped = true := by
          simpa using hC4
        by_cases hC7 : (st.ball.hasDoubleJumped &&
            decide (0 < st.ball.extraJumps)) = true
        · rw [if_pos hC7]; dsimp only
          refine ⟨he.2.2.2.1 ▸ hwas, ?_, ?_, fun h => absurd h (by simp), ?_⟩
          · intro hfell hflag
            rw [he.2.2.1]
            rw [he.2.2.2.2] at hfell
            rw [he.2.1] at hflag
            exact hinv hfell hflag
          · intro _
            exact ⟨rfl, he.2.1 ▸ hflag1⟩
          · intro h; rw [h] at hflag1; cases hflag1
        · rw [if_neg hC7]; dsimp only
          exact ⟨hwas, hinv, fun h => ⟨rfl, h⟩, fun h => absurd h (by simp),
            fun h _ => h⟩

/-- Helper: one airborne, non-rearming event preserves falseness of the
was-on-platform flag and the fell invariant, grants a double jump only
from a clear flag, sets the flag when it grants one, and never clears a
set flag. -/
theorem stepEvent_airborne (st : TickState) (e : GameEvent)
    (hwas : st.ball.wasOnPlatform = false)
    (hinv : st.ball.airEntryMethod = AirEntry.fell →
      st.ball.hasDoubleJumped = true → st.ball.isJumping = true)
    (hoff : staysOffPlatform e = true) (hnr : noJetpackRearm e = true) :
    (stepEvent st e).1.ball.wasOnPlatform = false ∧
    ((stepEvent st e).1.ball.airEntryMethod = AirEntry.fell →
      (stepEvent st e).1.ball.hasDoubleJumped = true →
      (stepEvent st e).1.ball.isJumping = true) ∧
    (st.ball.hasDoubleJumped = true →
      (stepEvent st e).2 = false ∧ (stepEvent st e).1.ball.hasDoubleJumped = true) ∧
    ((stepEvent st e).2 = true → (stepEvent st e).1.ball.hasDoubleJumped = true) ∧
    (st.ball.hasDoubleJumped = false → (stepEvent st e).2 = false →
      (stepEvent st e).1.ball.hasDoubleJumped = false) := by
  cases e with
  | physicsTick keys dt speed active fuel env =>
      have henv : env.onPlatformNow = false := by simpa [staysOffPlatform] using hoff
      have h := updateBallPosition_airborne_fields keys dt speed active fuel env
        st.ball hwas henv
      dsimp only [stepEvent]
      refine ⟨h.2.2.2.1, ?_, ?_, ?_, ?_⟩
      · rw [h.1, h.2.1, h.2.2.1]; exact hinv
      · intro hflag; exact ⟨rfl, h.1 ▸ hflag⟩
      · intro hdj; cases hdj
      · intro hflag _; rw [h.1]; exact hflag
  | jetpackTick active fuel =>
      have hno : active = true → fuel ≠ 1 := by
        intro ha
        simp only [noJetpackRearm, ha, Bool.true_and, Bool.not_eq_true',
          decide_eq_false_iff_not] at hnr
        exact hnr
      have h := updateJetpack_no_deplete_fields active fuel st.ball hno
      dsimp only [stepEvent]
      refine ⟨h.2.2.2.1 ▸ hwas, ?_, ?_, ?_, ?_⟩
      · rw [h.1, h.2.1, h.2.2.1]; exact hinv
      · intro hflag; exact ⟨rfl, h.1 ▸ hflag⟩
      · intro hdj; cases hdj
      · intro hflag _; rw [h.1]; exact hflag
  | collide info speed =>
      have hmiss : info.onPlatform = false := by simpa [staysOffPlatform] using hoff
      have h := handleCollisionInfo_miss info speed st.ball hmiss
      dsimp only [stepEvent]
      rw [h]
      exact ⟨hwas, hinv, fun hflag => ⟨rfl, hflag⟩,
        fun hdj => absurd hdj Bool.false_ne_true, fun hflag _ => hflag⟩
  | pressJump onPlatform =>
      have honp : onPlatform = false := by simpa [staysOffPlatform] using hoff
      subst honp
      exact handleJumpInput_airborne st hwas hinv
  | releaseSpace =>
      have h := releaseSpaceKey_fields st
      dsimp only [stepEvent]
      refine ⟨h.2.2.2.1 ▸ hwas, ?_, ?_, ?_, ?_⟩
      · rw [h.1, h.2.1, h.2.2.1]; exact hinv
      · intro hflag; exact ⟨rfl, h.1 ▸ hflag⟩
      · intro hdj; cases hdj
      · intro hflag _; rw [h.1]; exact hflag

/-- C4 (amended).  In any stretch of events during which the ball never
touches a platform and the jetpack never consumes its final fuel unit,
at most one double jump is granted — none at all if the double-jump flag
is already set — provided the stretch starts past the first airborne
frame (was-on-platform already false) and the run-time fell invariant
holds.  The jetpack-depletion path of updateJetpack is the one mid-air
path that re-arms the double jump, which the counterexample exhibits. -/
theorem double_jump_once_without_jetpack_rearm (st : TickState)
    (evs : List GameEvent)
    (hwas : st.ball.wasOnPlatform = false)
    (hinv : st.ball.airEntryMethod = AirEntry.fell →
      st.ball.hasDoubleJumped = true → st.ball.isJumping = true)
    (hevs : ∀ e ∈ evs, staysOffPlatform e = true ∧ noJetpackRearm e = true) :
    runDJ st evs ≤ if st.ball.hasDoubleJumped = true then 0 else 1 := by
  induction evs generalizing st with
  | nil =>
      dsimp only [runDJ]
      split <;> omega
  | cons e rest ih =>
      obtain ⟨hoff, hnr⟩ := hevs e (List.mem_cons_self e rest)
      have hstep := stepEvent_airborne st e hwas hinv hoff hnr
      have hrest : ∀ e' ∈ rest, staysOffPlatform e' = true ∧ noJetpackRearm e' = true :=
        fun e' h => hevs e' (List.mem_cons_of_mem e h)
      have ih' := ih (stepEvent st e).1 hstep.1 hstep.2.1 hrest
      rw [show runDJ st (e :: rest) =
            (if (stepEvent st e).2 then 1 else 0) + runDJ (stepEvent st e).1 rest
          from rfl]
      by_cases hflag : st.ball.hasDoubleJumped = true
      · rw [if_pos hflag]
        obtain ⟨hdj0, hflag'⟩ := hstep.2.2.1 hflag
        rw [if_pos hflag'] at ih'
        rw [hdj0]
        simpa using ih'
      · rw [if_neg hflag]
        have hflag0 : st.ball.hasDoubleJumped = false := by
          cases h : st.ball.hasDoubleJumped
          · rfl
          · exact absurd h hflag
        by_cases hdj : (stepEvent st e).2 = true
        · rw [hdj]
          have hflag' := hstep.2.2.2.1 hdj
          rw [if_pos hflag'] at ih'
          simp only [if_true]
          omega
        · have hdj0 : (stepEvent st e).2 = false := by
            cases h : (stepEvent st e).2
            · rfl
            · exact absurd h hdj
          rw [hdj0]
          have hflag' := hstep.2.2.2.2 hflag0 hdj0
          rw [if_neg (by simp [hflag'])] at ih'
          simp only [Bool.false_eq_true, if_false]
          omega

/-- Witness for C4's amended bound: on the all-airborne, non-rearming
prefix of the counterexample trace, at most one double jump is granted
from a clear flag. -/
theorem double_jump_once_without_jetpack_rearm_witness :
    runDJ airborneTick [GameEvent.pressJump false, GameEvent.releaseSpace] ≤
      if airborneTick.ball.hasDoubleJumped = true then 0 else 1 :=
  double_jump_once_without_jetpack_rearm airborneTick
    [GameEvent.pressJump false, GameEvent.releaseSpace] rfl
    (fun h => absurd h (by simp [airborneTick])) (by decide)

/-- Counterexample for C4: starting airborne (entry method jumped, flag
clear), the trace press-release-jetpackDepletion-press grants two double
jumps although the ball never touches a platform in between — the
jetpack tick that consumes the final fuel unit clears the double-jump
flag mid-air. -/
theorem double_jump_twice_airborne :
    (∀ e ∈ rearmTrace, staysOffPlatform e = true) ∧
    runDJ airborneTick rearmTrace = 2 ∧
    ¬(runDJ airborneTick rearmTrace ≤ 1) := by
  have h2 : runDJ airborneTick rearmTrace = 2 := rfl
  refine ⟨by decide, h2, ?_⟩
  rw [h2]
  omega

/-- C7.  For a horizontal-motion platform, one kinematics tick caches the
pre-tick position as lastPosition, advances the phase by
movementSpeed * deltaTime * 60, sets x to the anchor plus
movementRange * sin(new phase) while leaving y and z unchanged; when the
phase advances from 0 by pi/2 the displacement from the anchor along X
is exactly the range; and the rider update adds to the ball exactly the
platform's position delta (current position minus the pre-tick
position). -/
theorem horizontal_platform_kinematics (p : MovingPlatform) (deltaTime : ℝ)
    (ballPos : V3R)
    (hmov : p.isMovingPlatform = true)
    (htype : p.movementType = MovementType.horizontal) :
    (updateMovingPlatform deltaTime p).lastPosition = p.pos ∧
    (updateMovingPlatform deltaTime p).movementProgress =
      p.movementProgress + p.movementSpeed * deltaTime * 60 ∧
    (updateMovingPlatform deltaTime p).pos.x =
      p.originalPosition.x + p.movementRange *
        Real.sin (p.movementProgress + p.movementSpeed * deltaTime * 60) ∧
    (updateMovingPlatform deltaTime p).pos.y = p.pos.y ∧
    (updateMovingPlatform deltaTime p).pos.z = p.pos.z ∧
    (p.movementProgress = 0 → p.movementSpeed * deltaTime * 60 = Real.pi / 2 →
      (updateMovingPlatform deltaTime p).pos.x - p.originalPosition.x =
        p.movementRange) ∧
    rideMovingPlatform ballPos (updateMovingPlatform deltaTime p) =
      ⟨ballPos.x + ((updateMovingPlatform deltaTime p).pos.x - p.pos.x),
       ballPos.y + ((updateMovingPlatform deltaTime p).pos.y - p.pos.y),
       ballPos.z + ((updateMovingPlatform deltaTime p).pos.z - p.pos.z)⟩ := by
  simp only [updateMovingPlatform, hmov, htype, if_true]
  refine ⟨trivial, trivial, by ring, trivial, trivial, ?_, ?_⟩
  · intro h0 hsp
    rw [h0, zero_add, hsp, Real.sin_pi_div_two]
    ring
  · simp only [rideMovingPlatform]

/-- Witness for C7: after a quarter-period tick from phase 0, the
concrete platform is displaced from its anchor by exactly its range, and
its pre-tick position was cached. -/
theorem horizontal_platform_kinematics_witness :
    (updateMovingPlatform (Real.pi / 120) pHoriz).pos.x -
      pHoriz.originalPosition.x = pHoriz.movementRange ∧
    (updateMovingPlatform (Real.pi / 120) pHoriz).lastPosition = pHoriz.pos := by
  have h := horizontal_platform_kinematics pHoriz (Real.pi / 120) ⟨0, 0, 0⟩ rfl rfl
  refine ⟨h.2.2.2.2.2.1 rfl ?_, h.1⟩
  show pHoriz.movementSpeed * (Real.pi / 120) * 60 = Real.pi / 2
  rw [show pHoriz.movementSpeed = 1 from rfl]
  ring

end BallDrop
